import Mathlib

/-!
# The CAN module of the NodeMCU firmware (`components/modules/can.c`)

A shallow embedding of the Lua-facing functions `can_setup`, `can_start`,
`can_stop`, `can_send`, of the receive task `task_CAN` and of the posted
handler `can_data_task`, followed by theorems about them.

Conventions of the embedding.

* The module's static variables (`CAN_cfg`, `can_on_received`,
  `xCanTaskHandle`) and the Lua registry form the explicit `State`.
* `luaL_error` does not return: a function that raises stops at that point.
  The `Outcome` keeps the state reached when the error was raised, since the
  writes made before it stay in the static variables.
* The TWAI driver and FreeRTOS are outside the module.  What they answer in a run
  is the `Env` argument; what the module asks of them is recorded, in order,
  in the `calls` of the `Outcome`.
* C integers are `Nat`/`Int` with explicit reduction at each cast.
-/

namespace Can

/-! ## Data model -/

/-- One octet (`uint8_t`, or a `char` of a Lua string). -/
abbrev Byte := Fin 256

/-- The error code type of the driver, `esp_err_t`. -/
abbrev esp_err_t := Int

def ESP_OK : esp_err_t := 0
def ESP_FAIL : esp_err_t := -1
def ESP_ERR_INVALID_STATE : esp_err_t := 0x103

/-- A task handle that is not `NULL`; `NULL` is `Option.none`. -/
abbrev TaskHandle_t := Nat

/-- The module constant `can.STANDARD_FRAME`. -/
def STANDARD_FRAME : Int := 0

/-- The module constant `can.EXTENDED_FRAME`. -/
def EXTENDED_FRAME : Int := 1

/-- The value `LUA_NOREF` of `lauxlib.h`. -/
def LUA_NOREF : Int := -2

/-- The value `LUA_REFNIL` of `lauxlib.h`. -/
def LUA_REFNIL : Int := -1

/-- The driver's message type `twai_message_t`: the `extd` bit, the other
bits of the flag word (`rtr`, `ss`, `self`, `dlc_non_comp`, reserved), the
identifier, the length code and the 8 data bytes. -/
structure twai_message_t where
  extd : Bool
  other_flags : Nat
  identifier : Nat
  data_length_code : Nat
  data : List Byte
deriving DecidableEq, Repr

/-- The type `CAN_device_t` (the unused `rx_queue` member is left out). -/
structure CAN_device_t where
  speed : Int
  tx_pin_id : Int
  rx_pin_id : Int
  code : Nat
  mask : Nat
  dual_filter : Bool
deriving DecidableEq, Repr

/-- A value stored under a string key of a Lua table: a boolean or a number.
An absent key reads as `nil`. -/
inductive Field where
  | boolean (b : Bool)
  | number (n : Int)
deriving DecidableEq, Repr

/-- A Lua value as far as this module handles them.  Numbers are integral;
a function is named by a number; a table is its list of string-keyed fields. -/
inductive TValue where
  | nil
  | boolean (b : Bool)
  | number (n : Int)
  | string (s : List Byte)
  | function (f : Nat)
  | table (fields : List (String × Field))
deriving DecidableEq, Repr

def Field.toTValue : Field → TValue
  | .boolean b => .boolean b
  | .number n => .number n

/-- The stack frame of one call of a C function: `stack` holds the live
values, index 1 first; `stale` holds the slots above the top, the nearest
first, with whatever earlier calls left in them. -/
structure Frame where
  stack : List TValue
  stale : List TValue
deriving DecidableEq, Repr

/-- The static variables of `can.c` together with the Lua registry entries
made through `luaL_ref`. -/
structure State where
  CAN_cfg : CAN_device_t
  can_on_received : Int
  xCanTaskHandle : Option TaskHandle_t
  registry : List (Int × TValue)
deriving DecidableEq, Repr

/-- The initialiser of `CAN_cfg`. -/
def CAN_cfg_init : CAN_device_t :=
  { speed := 1000, tx_pin_id := -1, rx_pin_id := -1, code := 0, mask := 0xffffffff,
    dual_filter := false }

/-- The state after load: `CAN_cfg` as initialised, no callback reference,
no task handle. -/
def State.init : State :=
  { CAN_cfg := CAN_cfg_init, can_on_received := LUA_NOREF, xCanTaskHandle := none,
    registry := [] }

/-- What the driver and the RTOS answer during one call. -/
structure Env where
  twai_driver_install : esp_err_t
  twai_start : esp_err_t
  twai_stop : esp_err_t
  twai_transmit : esp_err_t
  xTaskCreate : Option TaskHandle_t
deriving DecidableEq, Repr

/-- A request made to the driver or the RTOS. -/
inductive Call where
  | xTaskCreate (name : String) (stackDepth : Nat)
  | vTaskDelete (h : TaskHandle_t)
  | twai_driver_install (tx rx : Int) (timing : Option Int)
  | twai_start
  | twai_stop
  | twai_transmit (message : twai_message_t) (timeout_ms : Nat)
  | twai_receive (timeout_ms : Nat)
  | task_post_medium (message : twai_message_t)
deriving DecidableEq, Repr

/-- How a Lua C function ends: it returns a number of results, or
`luaL_error` raised a message. -/
inductive LuaResult where
  | returned (nresults : Nat)
  | raised (msg : String)
deriving DecidableEq, Repr

/-- The result of one call of a Lua C function of the module. -/
structure Outcome where
  result : LuaResult
  state : State
  calls : List Call
deriving DecidableEq, Repr

/-- A call of a Lua function made by the module. -/
structure LuaCall where
  fn : TValue
  args : List TValue
deriving DecidableEq, Repr

/-! ## The Lua API used by the module -/

/-- The stack slot an index names (`index2addr` without API checks): a
positive index counts from the bottom and reads `nil` beyond the top; an
index `idx ≤ 0` is the slot `top + idx`, so `-1` is the top value and `0`
is the first slot above the top. -/
def index2value (F : Frame) (idx : Int) : TValue :=
  if 0 < idx then F.stack.getD (idx.toNat - 1) .nil
  else if idx = 0 then F.stale.headD .nil
  else if idx.natAbs ≤ F.stack.length then F.stack.getD (F.stack.length - idx.natAbs) .nil
  else .nil

/-- Push a value: it overwrites the first slot above the top. -/
def lua_push (F : Frame) (v : TValue) : Frame :=
  { stack := F.stack ++ [v], stale := F.stale.tail }

/-- Pop one value: the slot keeps its content and becomes stale. -/
def lua_pop1 (F : Frame) : Frame :=
  match F.stack.getLast? with
  | some v => { stack := F.stack.dropLast, stale := v :: F.stale }
  | none => F

/-- The function `lua_settop` for an index `n ≥ 0`. -/
def lua_settop : Frame → Nat → Frame
  | F, n =>
    if F.stack.length ≤ n then
      { stack := F.stack ++ List.replicate (n - F.stack.length) .nil,
        stale := F.stale.drop (n - F.stack.length) }
    else
      { stack := F.stack.take n, stale := (F.stack.drop n) ++ F.stale }

/-- The function `lua_getfield` on a table without metatable: push `t[k]`. -/
def lua_getfield (F : Frame) (idx : Int) (k : String) : Frame :=
  match index2value F idx with
  | .table fields =>
    match fields.lookup k with
    | some v => lua_push F v.toTValue
    | none => lua_push F .nil
  | _ => lua_push F .nil

/-- The function `lua_toboolean`: false for `nil` and `false`, true otherwise. -/
def lua_toboolean (F : Frame) (idx : Int) : Bool :=
  match index2value F idx with
  | .nil => false
  | .boolean b => b
  | _ => true

/-- The function `luaL_checkint`: the number at the index cast to `int`, or no
value when the slot holds no number (the call then raises an argument error). -/
def luaL_checkint (F : Frame) (idx : Int) : Option Int :=
  match index2value F idx with
  | .number n => some (Int.bmod n (2 ^ 32))
  | _ => none

/-- The function `luaL_optnumber`: the default when the slot is `nil`,
the number when it holds one, else no value (an argument error). -/
def luaL_optnumber (F : Frame) (idx : Int) (d : Int) : Option Int :=
  match index2value F idx with
  | .nil => some d
  | .number n => some n
  | _ => none

/-- The cast `(uint32_t)` of an integral value. -/
def to_uint32 (n : Int) : Nat := (n % 2 ^ 32).toNat

/-- The cast `(uint8_t)` of an integral value. -/
def to_uint8 (n : Int) : Nat := (n % 2 ^ 8).toNat

/-- The conversion of a `uint32_t` to `lua_Integer`, a signed integer of
`w` bits (32 or 64, by the build configuration). -/
def to_lua_Integer (w : Nat) (n : Nat) : Int := Int.bmod n (2 ^ w)

/-- A registry key that is not in use. -/
def fresh_ref (reg : List (Int × TValue)) : Int :=
  reg.foldl (fun m e => max m (e.1 + 1)) 1

/-- The function `luaL_ref` on the registry: pop the top value and store it
under a key not in use; a `nil` value is not stored and gives `LUA_REFNIL`. -/
def luaL_ref (reg : List (Int × TValue)) (F : Frame) : Int × List (Int × TValue) × Frame :=
  match index2value F (-1) with
  | .nil => (LUA_REFNIL, reg, lua_pop1 F)
  | v => (fresh_ref reg, (fresh_ref reg, v) :: reg, lua_pop1 F)

/-- The function `luaL_unref` on the registry: release the entry of a
reference `ref ≥ 0`. -/
def luaL_unref (reg : List (Int × TValue)) (ref : Int) : List (Int × TValue) :=
  if 0 ≤ ref then reg.filter (fun e => e.1 != ref) else reg

/-- The function `lua_rawgeti` on the registry: push `registry[n]`. -/
def lua_rawgeti_registry (reg : List (Int × TValue)) (F : Frame) (n : Int) : Frame :=
  lua_push F ((reg.lookup n).getD .nil)

/-- The function `luaL_pcallx`: call the function below the `nargs`
arguments on top of the stack; the call is recorded. -/
def luaL_pcallx (F : Frame) (nargs : Nat) : List LuaCall :=
  [{ fn := F.stack.getD (F.stack.length - nargs - 1) .nil,
     args := F.stack.drop (F.stack.length - nargs) }]

/-! ## `can_send` and `can_data_task` -/

/-- The copy loop of `can_send`: `message.data[i] = data[i]` for `i` from 0
up to `len - 1`, the bytes of `data` taken in order. -/
def copy_data : List Byte → Nat → List Byte → List Byte
  | [], _, dst => dst
  | b :: rest, i, dst => copy_data rest (i + 1) (dst.set i b)

/-- The function `can_send`, after its three `luaL_check*` calls returned
`format_arg`, `id_arg` and the string `data`.  `message` is the local
variable as it lies on the C stack, not initialised. -/
def can_send (env : Env) (s : State) (message : twai_message_t)
    (format_arg id_arg : Int) (data : List Byte) : Outcome :=
  let format := to_uint8 format_arg
  let msg_id := to_uint32 id_arg
  let len := data.length
  if s.xCanTaskHandle = none then
    { result := .raised "CAN not started", state := s, calls := [] }
  else if len > 8 then
    { result := .raised "CAN can not send more than 8 bytes", state := s, calls := [] }
  else
    let message : twai_message_t :=
      { message with
        identifier := msg_id
        extd := format != 0
        data_length_code := len % 256
        data := copy_data data 0 message.data }
    if env.twai_transmit ≠ ESP_OK then
      { result := .raised "failed to queue message for transmission", state := s,
        calls := [.twai_transmit message 1000] }
    else
      { result := .returned 0, state := s, calls := [.twai_transmit message 1000] }

/-- The function `can_data_task`, run in the Lua task on a posted message:
the Lua calls it makes.  `w` is the width of `lua_Integer`, `F` the stack of
the Lua state at that moment. -/
def can_data_task (w : Nat) (s : State) (F : Frame) (message : twai_message_t) :
    List LuaCall :=
  if s.can_on_received = LUA_NOREF then []
  else
    let F := lua_rawgeti_registry s.registry F s.can_on_received
    let F := lua_push F (.number (if message.extd then 1 else 0))
    let F := lua_push F (.number (to_lua_Integer w message.identifier))
    let F := lua_push F (.string (message.data.take message.data_length_code))
    luaL_pcallx F 3

/-! ## The receive task -/

/-- The function `get_timing_config`: the timing configuration of a
supported speed, named by its rate in kbit/s, or nothing (the function returns
`false` and leaves `t_config` as it was). -/
def get_timing_config (speed : Int) : Option Int :=
  if speed = 100 then some 100
  else if speed = 125 then some 125
  else if speed = 250 then some 250
  else if speed = 500 then some 500
  else if speed = 800 then some 800
  else if speed = 1000 then some 1000
  else none

/-- A run of the receive task: the requests it made, and the message of the
`luaL_error` it raised, if any. -/
structure TaskRun where
  calls : List Call
  raised : Option String
deriving DecidableEq, Repr

/-- The loop of `task_CAN`, over the answers `twai_receive` gives before the
task is deleted: a received message is posted to `can_data_task`. -/
def receive_loop : List (esp_err_t × twai_message_t) → List Call
  | [] => []
  | (err, message) :: rest =>
    if err = ESP_OK then
      .twai_receive 10000 :: .task_post_medium message :: receive_loop rest
    else
      .twai_receive 10000 :: receive_loop rest

/-- The function `task_CAN`: install the driver with the pins and speed of
`CAN_cfg`, start it, then loop on `twai_receive`. -/
def task_CAN (env : Env) (s : State) (received : List (esp_err_t × twai_message_t)) :
    TaskRun :=
  let install : Call :=
    .twai_driver_install s.CAN_cfg.tx_pin_id s.CAN_cfg.rx_pin_id
      (get_timing_config s.CAN_cfg.speed)
  if env.twai_driver_install ≠ ESP_OK then
    { calls := [install], raised := some "failed to install CAN driver" }
  else if env.twai_start ≠ ESP_OK then
    { calls := [install, .twai_start], raised := some "failed to start CAN driver" }
  else
    { calls := install :: .twai_start :: receive_loop received, raised := none }

/-! ## The lifecycle functions -/

/-- The function `can_setup`, called with the arguments in `F`.  An argument
error of `luaL_checktable`, `luaL_checkfunction`, `luaL_checkint` or
`luaL_optnumber` is raised with a message that names only the expected type. -/
def can_setup (s : State) (F : Frame) : Outcome :=
  if s.xCanTaskHandle ≠ none then
    { result := .raised "stop CAN before setup", state := s, calls := [] }
  else
  match index2value F 1, index2value F 2 with
  | .table _, .function _ =>
    let F := lua_settop F 2
    let reg := if s.can_on_received ≠ LUA_NOREF then luaL_unref s.registry s.can_on_received
               else s.registry
    let (ref, reg, F) := luaL_ref reg F
    let s := { s with can_on_received := ref, registry := reg }
    let F := lua_getfield F 1 "speed"
    match luaL_checkint F (-1) with
    | none => { result := .raised "number expected", state := s, calls := [] }
    | some speed =>
    let s := { s with CAN_cfg := { s.CAN_cfg with speed := speed } }
    let F := lua_getfield F 1 "tx"
    match luaL_checkint F (-1) with
    | none => { result := .raised "number expected", state := s, calls := [] }
    | some tx =>
    let s := { s with CAN_cfg := { s.CAN_cfg with tx_pin_id := tx } }
    let F := lua_getfield F 1 "rx"
    match luaL_checkint F (-1) with
    | none => { result := .raised "number expected", state := s, calls := [] }
    | some rx =>
    let s := { s with CAN_cfg := { s.CAN_cfg with rx_pin_id := rx } }
    let F := lua_getfield F 1 "dual_filter"
    let s := { s with CAN_cfg := { s.CAN_cfg with dual_filter := lua_toboolean F 0 } }
    let F := lua_getfield F 1 "code"
    match luaL_optnumber F (-1) 0 with
    | none => { result := .raised "number expected", state := s, calls := [] }
    | some code =>
    let s := { s with CAN_cfg := { s.CAN_cfg with code := to_uint32 code } }
    let F := lua_getfield F 1 "mask"
    match luaL_optnumber F (-1) 0x0ffffffff with
    | none => { result := .raised "number expected", state := s, calls := [] }
    | some mask =>
    let s := { s with CAN_cfg := { s.CAN_cfg with mask := to_uint32 mask } }
    { result := .returned 0, state := s, calls := [] }
  | .table _, _ => { result := .raised "function expected", state := s, calls := [] }
  | _, _ => { result := .raised "table expected", state := s, calls := [] }

/-- The function `can_start`.  `xTaskCreate` writes the handle when it
creates the task and leaves the variable alone when it cannot. -/
def can_start (env : Env) (s : State) : Outcome :=
  if s.xCanTaskHandle ≠ none then
    { result := .raised "CAN started", state := s, calls := [] }
  else
    let handle := match env.xTaskCreate with
      | some h => some h
      | none => s.xCanTaskHandle
    { result := .returned 0, state := { s with xCanTaskHandle := handle },
      calls := [.xTaskCreate "CAN" 4096] }

/-- The function `can_stop`. -/
def can_stop (env : Env) (s : State) : Outcome :=
  let (s, deleted) := match s.xCanTaskHandle with
    | some h => ({ s with xCanTaskHandle := none }, [Call.vTaskDelete h])
    | none => (s, [])
  if env.twai_stop ≠ ESP_OK then
    { result := .raised "failed to stop CAN driver", state := s,
      calls := deleted ++ [.twai_stop] }
  else
    { result := .returned 0, state := s, calls := deleted ++ [.twai_stop] }

/-! ## Inputs used in the examples -/

/-- A driver and RTOS that accept every request; the created task gets handle 1. -/
def env_ok : Env :=
  { twai_driver_install := ESP_OK, twai_start := ESP_OK, twai_stop := ESP_OK,
    twai_transmit := ESP_OK, xTaskCreate := some 1 }

/-- Some content of the C stack where `can_send` has its local `message`. -/
def message_garbage : twai_message_t :=
  { extd := true, other_flags := 5, identifier := 99, data_length_code := 77,
    data := [9, 9, 9, 9, 9, 9, 9, 9] }

/-- The state after `can_start` succeeded on the state after load. -/
def state_running : State := { State.init with xCanTaskHandle := some 1 }

/-- A callback function value. -/
def cb_example : TValue := .function 7

/-- The state after a `setup` that stored reference 1 for `cb_example`. -/
def state_configured : State :=
  { CAN_cfg := { speed := 500, tx_pin_id := 4, rx_pin_id := 5, code := 0, mask := 0xffffffff,
                 dual_filter := false },
    can_on_received := 1, xCanTaskHandle := none, registry := [(1, cb_example)] }

/-- A driver that refuses to stop because it is not running. -/
def env_stop_refused : Env := { env_ok with twai_stop := ESP_ERR_INVALID_STATE }

/-- A driver whose installation fails. -/
def env_install_fails : Env := { env_ok with twai_driver_install := ESP_FAIL }

/-- The configuration table `{speed=500, tx=4, rx=5, dual_filter=true}`. -/
def table_dual : TValue :=
  .table [("speed", .number 500), ("tx", .number 4), ("rx", .number 5),
          ("dual_filter", .boolean true)]

/-- The configuration table `{speed=250, tx=4, rx=5, dual_filter=false, code=16, mask=255}`. -/
def table_single : TValue :=
  .table [("speed", .number 250), ("tx", .number 4), ("rx", .number 5),
          ("dual_filter", .boolean false), ("code", .number 16), ("mask", .number 255)]

/-- The value `lua_toboolean` gives for a Lua value. -/
def truthy : TValue → Bool
  | .nil => false
  | .boolean b => b
  | _ => true

/-! ## Lemmas on the helpers -/

theorem copy_data_take (data : List Byte) :
    ∀ (i : Nat) (dst : List Byte), i + data.length ≤ dst.length →
      (copy_data data i dst).take (i + data.length) = dst.take i ++ data := by
  induction data with
  | nil => intro i dst _; simp [copy_data]
  | cons b rest ih =>
    intro i dst h
    simp only [List.length_cons] at h
    have hlen : (i + 1) + rest.length ≤ (dst.set i b).length := by
      rw [List.length_set]; omega
    have hi : i < dst.length := by omega
    have h1 := ih (i + 1) (dst.set i b) hlen
    have h2 : (dst.set i b).take (i + 1) = dst.take i ++ [b] := by
      rw [List.take_succ, List.set_take, List.set_eq_of_length_le (by simp)]
      simp [hi]
    simp only [copy_data, List.length_cons]
    rw [show i + (rest.length + 1) = i + 1 + rest.length by omega, h1, h2]
    simp

theorem to_uint32_of_lt (n : Int) (h0 : 0 ≤ n) (h1 : n < 2 ^ 32) : (to_uint32 n : Int) = n := by
  unfold to_uint32
  rw [Int.emod_eq_of_lt h0 h1]
  exact Int.toNat_of_nonneg h0

theorem to_lua_Integer_of_lt (w : Nat) (n : Nat) (hw : 1 ≤ w) (h : (n : Int) < 2 ^ (w - 1)) :
    to_lua_Integer w n = n := by
  unfold to_lua_Integer
  obtain ⟨k, rfl⟩ : ∃ k, w = k + 1 := ⟨w - 1, by omega⟩
  simp only [Nat.add_sub_cancel] at h
  have hp : (2 : Int) ^ (k + 1) = 2 * 2 ^ k := by ring
  have hpos : (0 : Int) < 2 ^ k := by positivity
  have hcast : (((2 : Nat) ^ (k + 1) : Nat) : Int) = 2 * 2 ^ k := by
    push_cast; ring
  rw [Int.bmod_def, hcast]
  have hmod : (n : Int) % (2 * 2 ^ k) = n := Int.emod_eq_of_lt (by omega) (by omega)
  rw [hmod]
  have : (n : Int) < (2 * 2 ^ k + 1) / 2 := by omega
  simp [this]

/-- What `can_setup` stores on a stopped bus, for a table holding numbers under
`speed`, `tx`, `rx` and, when present, under `code` and `mask`: every member
of `CAN_cfg` comes from the table except `dual_filter`, which comes from the
fourth slot above the two arguments, whatever the table holds under
`dual_filter`; the callback is stored under the new reference, the registry
being the earlier one with the earlier reference released. -/
theorem can_setup_stores (s : State) (fields : List (String × Field)) (f : Nat)
    (stale : List TValue) (speed tx rx : Int) (dual : Option Field) (code mask : Option Int)
    (hstopped : s.xCanTaskHandle = none)
    (hspeed : fields.lookup "speed" = some (.number speed))
    (htx : fields.lookup "tx" = some (.number tx))
    (hrx : fields.lookup "rx" = some (.number rx))
    (hdual : fields.lookup "dual_filter" = dual)
    (hcode : fields.lookup "code" = code.map Field.number)
    (hmask : fields.lookup "mask" = mask.map Field.number) :
    (can_setup s ⟨[.table fields, .function f], stale⟩).result = .returned 0 ∧
    (can_setup s ⟨[.table fields, .function f], stale⟩).state.CAN_cfg
      = { speed := Int.bmod speed (2 ^ 32), tx_pin_id := Int.bmod tx (2 ^ 32),
          rx_pin_id := Int.bmod rx (2 ^ 32),
          code := to_uint32 (code.getD 0), mask := to_uint32 (mask.getD 0xffffffff),
          dual_filter := truthy (stale.getD 3 .nil) } ∧
    (can_setup s ⟨[.table fields, .function f], stale⟩).state.registry
      = (fresh_ref (if s.can_on_received ≠ LUA_NOREF
                    then luaL_unref s.registry s.can_on_received else s.registry),
         .function f) ::
        (if s.can_on_received ≠ LUA_NOREF
         then luaL_unref s.registry s.can_on_received else s.registry) ∧
    (can_setup s ⟨[.table fields, .function f], stale⟩).state.registry.lookup
        (can_setup s ⟨[.table fields, .function f], stale⟩).state.can_on_received
      = some (.function f) := by
  cases code <;> cases mask <;> cases dual <;>
  simp [can_setup, hstopped, index2value, lua_settop, luaL_ref, lua_pop1, lua_getfield,
    lua_push, luaL_checkint, luaL_optnumber, lua_toboolean, hspeed, htx, hrx, hdual, hcode, hmask,
    Field.toTValue, truthy]

/-! ## Theorems -/

/-- C1, counterexample: on the state after load (no receive task), a send of
nine bytes raises "CAN not started", not the size error. -/
theorem can_send_oversize_not_running_counterexample :
    (can_send env_ok State.init message_garbage 0 0x123 [1, 2, 3, 4, 5, 6, 7, 8, 9]).result
        = .raised "CAN not started" ∧
    (can_send env_ok State.init message_garbage 0 0x123 [1, 2, 3, 4, 5, 6, 7, 8, 9]).result
        ≠ .raised "CAN can not send more than 8 bytes" := by
  decide

/-- C1, amended: a send whose payload is longer than 8 bytes never calls
`twai_transmit` and leaves the state as it was, in every state; when the
receive task handle is set it raises "CAN can not send more than 8 bytes". -/
theorem can_send_oversize (env : Env) (s : State) (message : twai_message_t)
    (format_arg id_arg : Int) (data : List Byte) (hlen : 8 < data.length) :
    (can_send env s message format_arg id_arg data).calls = [] ∧
    (can_send env s message format_arg id_arg data).state = s ∧
    (s.xCanTaskHandle ≠ none →
      (can_send env s message format_arg id_arg data).result
        = .raised "CAN can not send more than 8 bytes") := by
  unfold can_send
  by_cases h : s.xCanTaskHandle = none
  · simp [h]
  · simp [h, hlen]

theorem can_send_oversize_witness :
    (can_send env_ok state_running message_garbage 1 0x123 [1, 2, 3, 4, 5, 6, 7, 8, 9]).calls = [] ∧
    (can_send env_ok state_running message_garbage 1 0x123 [1, 2, 3, 4, 5, 6, 7, 8, 9]).state
      = state_running ∧
    (state_running.xCanTaskHandle ≠ none →
      (can_send env_ok state_running message_garbage 1 0x123 [1, 2, 3, 4, 5, 6, 7, 8, 9]).result
        = .raised "CAN can not send more than 8 bytes") :=
  can_send_oversize env_ok state_running message_garbage 1 0x123 [1, 2, 3, 4, 5, 6, 7, 8, 9]
    (by decide)

/-- C2: while the receive task handle is unset, every send raises
"CAN not started", calls nothing of the driver (so never `twai_transmit`) and
leaves the state as it was. -/
theorem can_send_not_running (env : Env) (s : State) (message : twai_message_t)
    (format_arg id_arg : Int) (data : List Byte) (h : s.xCanTaskHandle = none) :
    (can_send env s message format_arg id_arg data).result = .raised "CAN not started" ∧
    (can_send env s message format_arg id_arg data).calls = [] ∧
    (can_send env s message format_arg id_arg data).state = s := by
  simp [can_send, h]

theorem can_send_not_running_witness :
    (can_send env_ok State.init message_garbage 0 0x123 [1, 2]).result
      = .raised "CAN not started" ∧
    (can_send env_ok State.init message_garbage 0 0x123 [1, 2]).calls = [] ∧
    (can_send env_ok State.init message_garbage 0 0x123 [1, 2]).state = State.init :=
  can_send_not_running env_ok State.init message_garbage 0 0x123 [1, 2] rfl

/-- C3: round trip of send and dispatch.  For an extended flag (passed as
`can.EXTENDED_FRAME` or `can.STANDARD_FRAME`), an identifier
that is a `uint32_t` value and fits `lua_Integer` (of `w ≥ 32` bits), and a
payload of at most 8 bytes, a send on a running bus hands exactly one frame to
`twai_transmit`, whatever the driver answers; and `can_data_task` on that frame,
while a callback `cb` is registered, makes exactly one Lua call: `cb` with
`(1 if extended else 0, identifier, payload)`. -/
theorem send_dispatch_round_trip (w : Nat) (env : Env) (s : State) (F : Frame)
    (message : twai_message_t) (extended : Bool) (identifier : Int) (payload : List Byte)
    (cb : TValue)
    (hw : 32 ≤ w)
    (hrun : s.xCanTaskHandle ≠ none)
    (hid0 : 0 ≤ identifier) (hid32 : identifier < 2 ^ 32) (hidw : identifier < 2 ^ (w - 1))
    (hlen : payload.length ≤ 8)
    (hdata : message.data.length = 8)
    (href : s.can_on_received ≠ LUA_NOREF)
    (hcb : s.registry.lookup s.can_on_received = some cb) :
    ∃ frame : twai_message_t,
      (can_send env s message (if extended then EXTENDED_FRAME else STANDARD_FRAME)
          identifier payload).calls
        = [.twai_transmit frame 1000] ∧
      can_data_task w s F frame
        = [{ fn := cb,
             args := [.number (if extended then 1 else 0), .number identifier,
                      .string payload] }] := by
  have hcopy : (copy_data payload 0 message.data).take payload.length = payload := by
    have := copy_data_take payload 0 message.data (by omega)
    simpa using this
  have hidn : (to_uint32 identifier : Int) = identifier := to_uint32_of_lt identifier hid0 hid32
  have hpush : to_lua_Integer w (to_uint32 identifier) = identifier := by
    rw [to_lua_Integer_of_lt w _ (by omega) (by rw [hidn]; exact hidw), hidn]
  have hmod : payload.length % 256 = payload.length := Nat.mod_eq_of_lt (by omega)
  have hfmt : (to_uint8 (if extended then EXTENDED_FRAME else STANDARD_FRAME) != 0)
      = extended := by
    cases extended <;> decide
  have hgt : ¬ payload.length > 8 := by omega
  refine ⟨{ message with
              identifier := to_uint32 identifier
              extd := to_uint8 (if extended then EXTENDED_FRAME else STANDARD_FRAME) != 0
              data_length_code := payload.length % 256
              data := copy_data payload 0 message.data }, ?_, ?_⟩
  · unfold can_send
    by_cases ht : env.twai_transmit = ESP_OK <;> simp [hrun, hgt, ht]
  · simp only [can_data_task, href, if_false, lua_rawgeti_registry, hcb, Option.getD_some,
      luaL_pcallx, lua_push, hmod, hcopy, hpush, hfmt]
    cases extended <;> simp [List.getElem_append_right]

theorem send_dispatch_round_trip_witness :
    ∃ frame : twai_message_t,
      (can_send env_ok { state_configured with xCanTaskHandle := some 1 } message_garbage
          (if false then EXTENDED_FRAME else STANDARD_FRAME) 0x123 [1, 2]).calls
        = [.twai_transmit frame 1000] ∧
      can_data_task 32 { state_configured with xCanTaskHandle := some 1 } ⟨[], []⟩ frame
        = [{ fn := cb_example,
             args := [.number (if false then 1 else 0), .number 0x123, .string [1, 2]] }] :=
  send_dispatch_round_trip 32 env_ok { state_configured with xCanTaskHandle := some 1 } ⟨[], []⟩
    message_garbage false 0x123 [1, 2] cb_example (by decide) (by decide) (by decide)
    (by decide) (by decide) (by decide) (by decide) (by decide) (by decide)

/-- C4: while the receive task handle is set, `start` raises "CAN started",
makes no request (no `xTaskCreate`, so no second receive task) and leaves the
whole state (handle, stored configuration, callback reference, registry) as it
was, whatever the driver and the RTOS would answer. -/
theorem can_start_running (env : Env) (s : State) (h : s.xCanTaskHandle ≠ none) :
    can_start env s = { result := .raised "CAN started", state := s, calls := [] } := by
  simp [can_start, h]

theorem can_start_running_witness :
    can_start env_ok state_running
      = { result := .raised "CAN started", state := state_running, calls := [] } :=
  can_start_running env_ok state_running (by decide)

/-- C5: while the receive task handle is set, `setup` raises
"stop CAN before setup" before it reads any argument, and leaves the whole
state (stored configuration, callback reference, registry, handle) as it was. -/
theorem can_setup_running (s : State) (F : Frame) (h : s.xCanTaskHandle ≠ none) :
    can_setup s F = { result := .raised "stop CAN before setup", state := s, calls := [] } := by
  simp [can_setup, h]

theorem can_setup_running_witness :
    can_setup { state_configured with xCanTaskHandle := some 1 }
        ⟨[table_single, .function 9], []⟩
      = { result := .raised "stop CAN before setup",
          state := { state_configured with xCanTaskHandle := some 1 }, calls := [] } :=
  can_setup_running { state_configured with xCanTaskHandle := some 1 }
    ⟨[table_single, .function 9], []⟩ (by decide)

/-- C6, counterexample: on the state after load (pins -1, no callback), `start`
returns without error, asks for the receive task and stores its handle. -/
theorem can_start_unconfigured_counterexample :
    (can_start env_ok State.init).result = .returned 0 ∧
    (can_start env_ok State.init).calls = [.xTaskCreate "CAN" 4096] ∧
    (can_start env_ok State.init).state.xCanTaskHandle = some 1 := by
  decide

/-- C6, amended: `start` makes no check of the configuration.  In a state where
`setup` was never called (configuration as initialised, pins -1) and no task
handle is set, it returns without error after one `xTaskCreate` request, and
the handle afterwards is the one the RTOS gave (set when the task was created);
the rest of the state is as before.  The receive task then asks the driver to
install with the pins -1 and -1 and the timing of 1000 kbit/s. -/
theorem can_start_unconfigured (env : Env) (s : State)
    (received : List (esp_err_t × twai_message_t))
    (hcfg : s.CAN_cfg = CAN_cfg_init) (hh : s.xCanTaskHandle = none) :
    can_start env s
      = { result := .returned 0, state := { s with xCanTaskHandle := env.xTaskCreate },
          calls := [.xTaskCreate "CAN" 4096] } ∧
    (task_CAN env (can_start env s).state received).calls.head?
      = some (.twai_driver_install (-1) (-1) (some 1000)) := by
  have hstart : can_start env s
      = { result := .returned 0, state := { s with xCanTaskHandle := env.xTaskCreate },
          calls := [.xTaskCreate "CAN" 4096] } := by
    cases hx : env.xTaskCreate <;> simp [can_start, hh, hx]
  refine ⟨hstart, ?_⟩
  rw [hstart]
  unfold task_CAN
  simp only [hcfg]
  by_cases hi : env.twai_driver_install = ESP_OK <;>
    by_cases hs : env.twai_start = ESP_OK <;>
    simp [hi, hs, CAN_cfg_init, get_timing_config]

theorem can_start_unconfigured_witness :
    can_start env_ok State.init
      = { result := .returned 0,
          state := { State.init with xCanTaskHandle := env_ok.xTaskCreate },
          calls := [.xTaskCreate "CAN" 4096] } ∧
    (task_CAN env_ok (can_start env_ok State.init).state []).calls.head?
      = some (.twai_driver_install (-1) (-1) (some 1000)) :=
  can_start_unconfigured env_ok State.init [] rfl rfl

/-- C7, counterexample: on the state after load (not running), with a driver
that refuses to stop, `stop` asks the driver to stop and raises
"failed to stop CAN driver". -/
theorem can_stop_not_running_counterexample :
    (can_stop env_stop_refused State.init).result = .raised "failed to stop CAN driver" ∧
    (can_stop env_stop_refused State.init).calls = [.twai_stop] := by
  decide

/-- C7, amended: when the receive task handle is unset, `stop` leaves the state
as it was and deletes no task, but it does call `twai_stop` once; it returns
without error exactly when `twai_stop` answers `ESP_OK` and raises
"failed to stop CAN driver" otherwise.  A second `stop` ends in the same state
as a single one, and with the same result when the driver answers the same. -/
theorem can_stop_not_running (env env2 : Env) (s : State) (h : s.xCanTaskHandle = none) :
    (can_stop env s).state = s ∧
    (can_stop env s).calls = [.twai_stop] ∧
    ((can_stop env s).result = .returned 0 ↔ env.twai_stop = ESP_OK) ∧
    (env.twai_stop ≠ ESP_OK → (can_stop env s).result = .raised "failed to stop CAN driver") ∧
    (can_stop env2 (can_stop env s).state).state = (can_stop env s).state ∧
    can_stop env (can_stop env s).state = can_stop env s := by
  by_cases hs : env.twai_stop = ESP_OK <;> by_cases hs2 : env2.twai_stop = ESP_OK <;>
    simp [can_stop, h, hs, hs2]

theorem can_stop_not_running_witness :
    (can_stop env_ok state_configured).state = state_configured ∧
    (can_stop env_ok state_configured).calls = [.twai_stop] ∧
    ((can_stop env_ok state_configured).result = .returned 0 ↔ env_ok.twai_stop = ESP_OK) ∧
    (env_ok.twai_stop ≠ ESP_OK →
      (can_stop env_ok state_configured).result = .raised "failed to stop CAN driver") ∧
    (can_stop env_stop_refused (can_stop env_ok state_configured).state).state
      = (can_stop env_ok state_configured).state ∧
    can_stop env_ok (can_stop env_ok state_configured).state
      = can_stop env_ok state_configured :=
  can_stop_not_running env_ok env_stop_refused state_configured rfl

/-- C8, counterexample: on a running bus whose driver refuses to stop, `stop`
raises the driver error, yet the handle is cleared afterwards: a following send
raises "CAN not started" and a following start is accepted. -/
theorem can_stop_failed_counterexample :
    (can_stop env_stop_refused state_running).result = .raised "failed to stop CAN driver" ∧
    (can_stop env_stop_refused state_running).state.xCanTaskHandle = none ∧
    (can_send env_ok (can_stop env_stop_refused state_running).state message_garbage
        0 0x123 [1, 2]).result = .raised "CAN not started" ∧
    (can_start env_ok (can_stop env_stop_refused state_running).state).result = .returned 0 := by
  decide

/-- C8, amended: on a running bus whose `twai_stop` reports an error, `stop`
raises "failed to stop CAN driver", but by then it has deleted the receive task
and cleared the handle (the stored configuration, callback reference and
registry are as before): the bus is not running afterwards, so a following send
raises "CAN not started" and a following start is not refused. -/
theorem can_stop_failed (env env2 : Env) (s : State) (h : TaskHandle_t)
    (message : twai_message_t) (format_arg id_arg : Int) (data : List Byte)
    (hrun : s.xCanTaskHandle = some h) (hfail : env.twai_stop ≠ ESP_OK) :
    (can_stop env s).result = .raised "failed to stop CAN driver" ∧
    (can_stop env s).calls = [.vTaskDelete h, .twai_stop] ∧
    (can_stop env s).state = { s with xCanTaskHandle := none } ∧
    (can_send env2 (can_stop env s).state message format_arg id_arg data).result
      = .raised "CAN not started" ∧
    (can_start env2 (can_stop env s).state).result = .returned 0 := by
  simp [can_stop, can_send, can_start, hrun, hfail]

theorem can_stop_failed_witness :
    (can_stop env_stop_refused state_running).result = .raised "failed to stop CAN driver" ∧
    (can_stop env_stop_refused state_running).calls = [.vTaskDelete 1, .twai_stop] ∧
    (can_stop env_stop_refused state_running).state
      = { state_running with xCanTaskHandle := none } ∧
    (can_send env_ok (can_stop env_stop_refused state_running).state message_garbage
        1 0x123 [1, 2]).result = .raised "CAN not started" ∧
    (can_start env_ok (can_stop env_stop_refused state_running).state).result = .returned 0 :=
  can_stop_failed env_stop_refused env_ok state_running 1 message_garbage 1 0x123 [1, 2]
    rfl (by decide)

/-- C9, counterexample: on a configured, stopped bus whose driver installation
fails, `start` returns without error and the handle is set afterwards; the
failure shows only inside the receive task. -/
theorem can_start_install_fails_counterexample :
    (can_start env_install_fails state_configured).result = .returned 0 ∧
    (can_start env_install_fails state_configured).state.xCanTaskHandle = some 1 ∧
    (can_start env_install_fails state_configured).state ≠ state_configured ∧
    (task_CAN env_install_fails (can_start env_install_fails state_configured).state []).raised
      = some "failed to install CAN driver" := by
  decide

/-- C9, amended: `start` does not install or start the driver itself.  In a
state with no task handle, when the task is created, `start` returns without
error after the single request `xTaskCreate`, and the handle is set (the rest of
the state unchanged), whatever the driver answers to the installation and to
the start; a following `start` is then refused with "CAN started".  The
installation and the start of the driver are requests of the receive task, made
with the pins and the speed of the stored configuration:
when the installation reports an error the task makes that one request, calls
`luaL_error` with "failed to install CAN driver" and goes no further;
when the installation succeeds and the start reports an error the task makes the
two requests, calls `luaL_error` with "failed to start CAN driver" and goes no
further; when both succeed it goes on to the receive loop. -/
theorem can_start_driver_fails (env env2 : Env) (s : State) (h : TaskHandle_t)
    (received : List (esp_err_t × twai_message_t))
    (hstopped : s.xCanTaskHandle = none) (hcreate : env.xTaskCreate = some h) :
    can_start env s
      = { result := .returned 0, state := { s with xCanTaskHandle := some h },
          calls := [.xTaskCreate "CAN" 4096] } ∧
    (can_start env2 (can_start env s).state).result = .raised "CAN started" ∧
    (env.twai_driver_install ≠ ESP_OK →
      task_CAN env (can_start env s).state received
        = { calls := [.twai_driver_install s.CAN_cfg.tx_pin_id s.CAN_cfg.rx_pin_id
                        (get_timing_config s.CAN_cfg.speed)],
            raised := some "failed to install CAN driver" }) ∧
    (env.twai_driver_install = ESP_OK → env.twai_start ≠ ESP_OK →
      task_CAN env (can_start env s).state received
        = { calls := [.twai_driver_install s.CAN_cfg.tx_pin_id s.CAN_cfg.rx_pin_id
                        (get_timing_config s.CAN_cfg.speed), .twai_start],
            raised := some "failed to start CAN driver" }) ∧
    (env.twai_driver_install = ESP_OK → env.twai_start = ESP_OK →
      task_CAN env (can_start env s).state received
        = { calls := .twai_driver_install s.CAN_cfg.tx_pin_id s.CAN_cfg.rx_pin_id
                        (get_timing_config s.CAN_cfg.speed)
                      :: .twai_start :: receive_loop received,
            raised := none }) := by
  have hstart : can_start env s
      = { result := .returned 0, state := { s with xCanTaskHandle := some h },
          calls := [.xTaskCreate "CAN" 4096] } := by
    simp [can_start, hstopped, hcreate]
  refine ⟨hstart, ?_, ?_, ?_, ?_⟩
  · rw [hstart]; simp [can_start]
  · intro hi
    rw [hstart]; simp [task_CAN, hi]
  · intro hi hs
    rw [hstart]; simp [task_CAN, hi, hs]
  · intro hi hs
    rw [hstart]; simp [task_CAN, hi, hs]

theorem can_start_driver_fails_witness :
    can_start env_install_fails state_configured
      = { result := .returned 0, state := { state_configured with xCanTaskHandle := some 1 },
          calls := [.xTaskCreate "CAN" 4096] } ∧
    (can_start env_ok (can_start env_install_fails state_configured).state).result
      = .raised "CAN started" ∧
    (env_install_fails.twai_driver_install ≠ ESP_OK →
      task_CAN env_install_fails (can_start env_install_fails state_configured).state
          [(ESP_OK, message_garbage)]
        = { calls := [.twai_driver_install state_configured.CAN_cfg.tx_pin_id
                        state_configured.CAN_cfg.rx_pin_id
                        (get_timing_config state_configured.CAN_cfg.speed)],
            raised := some "failed to install CAN driver" }) ∧
    (env_install_fails.twai_driver_install = ESP_OK →
      env_install_fails.twai_start ≠ ESP_OK →
      task_CAN env_install_fails (can_start env_install_fails state_configured).state
          [(ESP_OK, message_garbage)]
        = { calls := [.twai_driver_install state_configured.CAN_cfg.tx_pin_id
                        state_configured.CAN_cfg.rx_pin_id
                        (get_timing_config state_configured.CAN_cfg.speed), .twai_start],
            raised := some "failed to start CAN driver" }) ∧
    (env_install_fails.twai_driver_install = ESP_OK →
      env_install_fails.twai_start = ESP_OK →
      task_CAN env_install_fails (can_start env_install_fails state_configured).state
          [(ESP_OK, message_garbage)]
        = { calls := .twai_driver_install state_configured.CAN_cfg.tx_pin_id
                        state_configured.CAN_cfg.rx_pin_id
                        (get_timing_config state_configured.CAN_cfg.speed)
                      :: .twai_start :: receive_loop [(ESP_OK, message_garbage)],
            raised := none }) :=
  can_start_driver_fails env_install_fails env_ok state_configured 1
    [(ESP_OK, message_garbage)] rfl rfl

/-- C10, the code at two inputs.  `setup` on a stopped bus stores speed, pins,
code, mask (with their defaults) and the callback as given, and releases the
earlier callback reference, but `dual_filter` is read by `lua_toboolean(L, 0)`,
the slot above the top of the stack, not the field just pushed: with
`dual_filter = true` in the table and `nil` in that slot the stored value is
`false`; with `dual_filter = false` in the table and `true` left in that slot
the stored value is `true`. -/
theorem can_setup_dual_filter_from_stale_slot :
    (can_setup state_configured ⟨[table_dual, .function 9], [.nil, .nil, .nil, .nil]⟩).result
      = .returned 0 ∧
    (can_setup state_configured ⟨[table_dual, .function 9], [.nil, .nil, .nil, .nil]⟩).state
      = { CAN_cfg := { speed := 500, tx_pin_id := 4, rx_pin_id := 5, code := 0,
                       mask := 0xffffffff, dual_filter := false },
          can_on_received := 1, xCanTaskHandle := none, registry := [(1, .function 9)] } ∧
    (can_setup State.init
        ⟨[table_single, cb_example], [.nil, .nil, .nil, .boolean true]⟩).result
      = .returned 0 ∧
    (can_setup State.init
        ⟨[table_single, cb_example], [.nil, .nil, .nil, .boolean true]⟩).state
      = { CAN_cfg := { speed := 250, tx_pin_id := 4, rx_pin_id := 5, code := 16,
                       mask := 255, dual_filter := true },
          can_on_received := 1, xCanTaskHandle := none, registry := [(1, cb_example)] } := by
  decide

end Can
